import Mathlib

/-!
# Verification of the ASL gesture-stabilizer and transcript buffer

Shallow embedding of the sentence-formation core of the ASL repository:

* `ASLDetector` in `src/index.ts` — per-frame gesture processing
  (`processGestureResults`, `processSignForSentence`, `addSignToSentence`),
  recording lifecycle (`toggleRecording`, `clearSentence`, `backspace`,
  `addSpace`).
* `SignLanguageConverter` in `src/services/SignLanguageConverter.ts` —
  gesture-to-text conversion (`processGesture`, `updateText`,
  `deleteLastCharacter`, `deleteLastWord`).

Timestamps (`Date.now()` values) are modelled as `Int`; confidence scores
as `ℚ`.  A video frame's recognition result is a `Sample`: `detected`
records whether `results.gestures` was non-empty, `label` / `score` are
the top gesture's `categoryName` / `score`, and `time` is the wall-clock
reading taken at the start of `processGestureResults`.
-/

namespace ASL

/-- Constants from `ASLDetector` (src/index.ts, lines 23-27). -/
def SIGN_STABILITY_THRESHOLD : Nat := 10

def SIGN_CONFIDENCE_THRESHOLD : ℚ := mkRat 85 100

def LETTER_COOLDOWN_PERIOD : Int := 3500

def NO_DETECTION_RESET_TIME : Int := 2000

/-! ## JavaScript string primitives

The source uses `trim`, `split(' ')`, `join(' ')`, `slice(0, -1)` and
`endsWith(' ')` on JavaScript strings.  They are embedded here as
structural recursions over the character list of a `String` (all source
text is ASCII, where JavaScript's UTF-16 code units coincide with
characters). -/

/-- JS `String.prototype.trim`: strip whitespace from both ends. -/
def jsTrim (s : String) : String :=
  String.mk (((s.data.dropWhile Char.isWhitespace).reverse.dropWhile Char.isWhitespace).reverse)

/-- Core of JS `String.prototype.split(' ')` on the character list: split
at every space, keeping empty fragments (so `"".split(' ')` is `[""]`
and `"A  B".split(' ')` is `["A", "", "B"]`). -/
def jsSplitSpaceAux : List Char → List (List Char)
  | [] => [[]]
  | c :: cs =>
    let rest := jsSplitSpaceAux cs
    if c = ' ' then [] :: rest
    else
      match rest with
      | w :: ws => (c :: w) :: ws
      | [] => [[c]]

/-- JS `String.prototype.split(' ')`. -/
def jsSplitSpace (s : String) : List String :=
  (jsSplitSpaceAux s.data).map (fun w => String.mk w)

/-- JS `Array.prototype.join(' ')`. -/
def jsJoinSpace : List String → String
  | [] => ""
  | w :: rest => rest.foldl (fun acc x => acc ++ " " ++ x) w

/-- JS `String.prototype.slice(0, -1)`: drop the final character. -/
def jsDropLast (s : String) : String :=
  String.mk s.data.dropLast

/-- JS `String.prototype.endsWith(' ')`. -/
def jsEndsWithSpace (s : String) : Bool :=
  s.data.getLast? = some ' '

/-- One per-frame recognition result, as consumed by
`processGestureResults`.  `detected = false` models
`results.gestures.length === 0`; otherwise `label` and `score` are the
top gesture's category name and score. -/
structure Sample where
  detected : Bool
  label : String
  score : ℚ
  time : Int
deriving Repr, DecidableEq

/-- The mutable fields of `ASLDetector` that the sentence-formation
logic reads or writes (src/index.ts, lines 13-22). -/
structure DetectorState where
  webcamRunning : Bool
  isRecording : Bool
  currentSentence : String
  lastDetectedSign : String
  signStabilityCounter : Nat
  lastSignChangeTime : Int
  lastAddedSign : String
  lastAddedTime : Int
  lastNoDetectionTime : Int
deriving Repr, DecidableEq

/-- Field initializers of `ASLDetector` (src/index.ts, lines 13-22),
with the webcam already enabled so that recording can start. -/
def freshDetector : DetectorState :=
  { webcamRunning := true
    isRecording := false
    currentSentence := ""
    lastDetectedSign := ""
    signStabilityCounter := 0
    lastSignChangeTime := 0
    lastAddedSign := ""
    lastAddedTime := 0
    lastNoDetectionTime := 0 }

/-- Embeds `ASLDetector.addSignToSentence` (src/index.ts, lines 408-429).
Returns the updated state together with the committed sign, `none` when
the per-letter cooldown suppresses the commit. -/
def addSignToSentence (s : DetectorState) (sign : String) (currentTime : Int) :
    DetectorState × Option String :=
  if sign = s.lastAddedSign ∧ currentTime - s.lastAddedTime < LETTER_COOLDOWN_PERIOD then
    (s, none)
  else
    ({ s with
        currentSentence := s.currentSentence ++ sign
        lastAddedSign := sign
        lastAddedTime := currentTime
        signStabilityCounter := 0 }, some sign)

/-- Embeds `ASLDetector.processSignForSentence` (src/index.ts, lines 389-406).
The source also receives the confidence but never reads it, so it is
omitted here. -/
def processSignForSentence (s : DetectorState) (sign : String) (currentTime : Int) :
    DetectorState × Option String :=
  if sign = s.lastDetectedSign then
    let s1 : DetectorState := { s with signStabilityCounter := s.signStabilityCounter + 1 }
    if s1.signStabilityCounter = SIGN_STABILITY_THRESHOLD then
      addSignToSentence s1 sign currentTime
    else
      (s1, none)
  else
    ({ s with
        signStabilityCounter := 1
        lastDetectedSign := sign
        lastSignChangeTime := currentTime }, none)

/-- Embeds `ASLDetector.processGestureResults` (src/index.ts, lines 359-387). -/
def processGestureResults (s : DetectorState) (smp : Sample) : DetectorState × Option String :=
  if smp.detected = false then
    let s1 : DetectorState :=
      if s.lastNoDetectionTime = 0 then { s with lastNoDetectionTime := smp.time } else s
    if s1.isRecording = true ∧ smp.time - s1.lastNoDetectionTime > NO_DETECTION_RESET_TIME then
      ({ s1 with signStabilityCounter := 0, lastDetectedSign := "" }, none)
    else
      (s1, none)
  else
    let s1 : DetectorState := { s with lastNoDetectionTime := 0 }
    if s1.isRecording = true ∧ smp.score ≥ SIGN_CONFIDENCE_THRESHOLD then
      processSignForSentence s1 smp.label smp.time
    else
      (s1, none)

/-- Embeds `ASLDetector.toggleRecording` (src/index.ts, lines 81-103): a no-op
when the webcam is off; otherwise flips `isRecording`, and on a start
resets the stability counter, the last detected sign and the
sign-change time. -/
def toggleRecording (s : DetectorState) (now : Int) : DetectorState :=
  if s.webcamRunning = false then s
  else
    let s1 : DetectorState := { s with isRecording := !s.isRecording }
    if s1.isRecording = true then
      { s1 with
          signStabilityCounter := 0
          lastDetectedSign := ""
          lastSignChangeTime := now }
    else
      s1

/-- Embeds `ASLDetector.clearSentence` (src/index.ts, lines 105-108). -/
def clearSentence (s : DetectorState) : DetectorState :=
  { s with currentSentence := "" }

/-- Embeds `ASLDetector.backspace` (src/index.ts, lines 110-115). -/
def backspace (s : DetectorState) : DetectorState :=
  if s.currentSentence.length > 0 then
    { s with currentSentence := jsDropLast s.currentSentence }
  else
    s

/-- Embeds `ASLDetector.addSpace` (src/index.ts, lines 117-120): appends a
space unconditionally. -/
def addSpace (s : DetectorState) : DetectorState :=
  { s with currentSentence := s.currentSentence ++ " " }

/-- A detector that has just started recording at time `t0`: fresh
construction followed by `toggleRecording` (the "initial stabilizer
state" of the spec). -/
def initState (t0 : Int) : DetectorState :=
  toggleRecording freshDetector t0

/-- Feed a list of samples through `processGestureResults`, collecting
the committed signs in arrival order. -/
def runSamples : DetectorState → List Sample → DetectorState × List String
  | s, [] => (s, [])
  | s, smp :: rest =>
    let r := processGestureResults s smp
    let r2 := runSamples r.1 rest
    (r2.1, r.2.toList ++ r2.2)

/-- A run of qualifying frames: one detected sample per entry of `ts`,
all carrying label `l` and score `c`. -/
def mkRun (l : String) (c : ℚ) (ts : List Int) : List Sample :=
  ts.map (fun t => { detected := true, label := l, score := c, time := t })

/-! ## SignLanguageConverter (src/services/SignLanguageConverter.ts) -/

/-- The mutable fields of `SignLanguageConverter`
(src/services/SignLanguageConverter.ts, lines 17-25). -/
structure ConverterState where
  currentGesture : String
  previousGesture : String
  gestureHistory : List String
  currentWord : String
  text : String
  lastGestureTime : Int
  isWordComplete : Bool
  spaceAdded : Bool
deriving Repr, DecidableEq

/-- Debounce interval `gestureDebounceTime` (line 23). -/
def gestureDebounceTime : Int := 500

/-- Embeds `SignLanguageConverter.reset` (lines 34-43), which is also the
constructor's state. -/
def ConverterState.reset : ConverterState :=
  { currentGesture := ""
    previousGesture := ""
    gestureHistory := []
    currentWord := ""
    text := ""
    lastGestureTime := 0
    isWordComplete := false
    spaceAdded := false }

/-- Embeds `SignLanguageConverter.updateText` (lines 80-107), acting on
`this.currentGesture`. -/
def updateText (s : ConverterState) : ConverterState :=
  if s.currentGesture = "space" then
    if s.spaceAdded = false then
      { s with
          text := s.text ++ " "
          currentWord := ""
          spaceAdded := true
          isWordComplete := true }
    else
      s
  else
    let s1 : ConverterState := { s with spaceAdded := false }
    let s2 : ConverterState :=
      if s1.currentGesture ≠ "" ∧ s1.currentGesture ≠ "none" then
        { s1 with currentWord := s1.currentWord ++ s1.currentGesture, isWordComplete := false }
      else
        s1
    let t0 := jsTrim s2.text
    let t1 := if t0.length > 0 ∧ jsEndsWithSpace t0 = false then t0 ++ " " else t0
    { s2 with text := t1 ++ s2.currentWord }

/-- Embeds `SignLanguageConverter.processGesture` (lines 48-75): debounced
gesture intake feeding `updateText`. -/
def processGesture (s : ConverterState) (gesture : String) (currentTime : Int) :
    ConverterState :=
  if gesture ≠ s.currentGesture ∧ currentTime - s.lastGestureTime > gestureDebounceTime then
    let s1 : ConverterState :=
      { s with
          previousGesture := s.currentGesture
          currentGesture := gesture
          lastGestureTime := currentTime }
    let hist := s1.gestureHistory ++ [gesture]
    let hist2 := if hist.length > 10 then hist.tail else hist
    updateText { s1 with gestureHistory := hist2 }
  else
    s

/-- Embeds `SignLanguageConverter.deleteLastCharacter` (lines 131-144). -/
def deleteLastCharacter (s : ConverterState) : ConverterState :=
  if s.currentWord.length > 0 then
    { s with currentWord := jsDropLast s.currentWord }
  else if s.text.length > 0 then
    { s with text := jsDropLast s.text }
  else
    s

/-- Embeds `SignLanguageConverter.deleteLastWord` (lines 149-169): splits the
trimmed text on spaces, pops the last token, rejoins, and re-appends a
trailing space when non-empty. -/
def deleteLastWord (s : ConverterState) : ConverterState :=
  if s.currentWord.length > 0 then
    { s with currentWord := "" }
  else
    let words := jsSplitSpace (jsTrim s.text)
    if words.length > 0 then
      let t0 := jsJoinSpace words.dropLast
      let t1 := if t0.length > 0 then t0 ++ " " else t0
      { s with text := t1 }
    else
      s

/-! ## Single-step characterization of `processGestureResults`

States are written with the anonymous constructor; the field order is
`⟨webcamRunning, isRecording, currentSentence, lastDetectedSign,
signStabilityCounter, lastSignChangeTime, lastAddedSign, lastAddedTime,
lastNoDetectionTime⟩`. -/

/-- A detected sample below the confidence threshold only clears the
no-detection timer: the stability counter, the observed label and the
cooldown fields are untouched, and no commit happens. -/
theorem step_lowconf (s : DetectorState) (l : String) (c : ℚ) (t : Int)
    (hc : c < SIGN_CONFIDENCE_THRESHOLD) :
    processGestureResults s ⟨true, l, c, t⟩ = ({ s with lastNoDetectionTime := 0 }, none) := by
  simp [processGestureResults, not_le.mpr hc]

/-- A detected qualifying sample while recording is handed to
`processSignForSentence` with only the no-detection timer cleared: the
label is forwarded verbatim, empty or not. -/
theorem step_qualifying (s : DetectorState) (l : String) (c : ℚ) (t : Int)
    (hrec : s.isRecording = true) (hc : SIGN_CONFIDENCE_THRESHOLD ≤ c) :
    processGestureResults s ⟨true, l, c, t⟩ =
      processSignForSentence { s with lastNoDetectionTime := 0 } l t := by
  simp [processGestureResults, hrec, hc]

/-- Qualifying sample repeating the observed label, short of the
stability threshold: the counter increments, nothing else changes. -/
theorem step_same_label (sent las : String) (cnt : Nat) (lsct lat lnd : Int)
    (l : String) (c : ℚ) (t : Int)
    (hc : SIGN_CONFIDENCE_THRESHOLD ≤ c) (hcnt : cnt + 1 ≠ SIGN_STABILITY_THRESHOLD) :
    processGestureResults ⟨true, true, sent, l, cnt, lsct, las, lat, lnd⟩ ⟨true, l, c, t⟩ =
      (⟨true, true, sent, l, cnt + 1, lsct, las, lat, 0⟩, none) := by
  simp [processGestureResults, processSignForSentence, hc, hcnt]

/-- Qualifying sample with a label different from the observed one:
the counter restarts at 1 and the observed label and change time are
updated. -/
theorem step_new_label (sent lds las : String) (cnt : Nat) (lsct lat lnd : Int)
    (l : String) (c : ℚ) (t : Int)
    (hc : SIGN_CONFIDENCE_THRESHOLD ≤ c) (hl : l ≠ lds) :
    processGestureResults ⟨true, true, sent, lds, cnt, lsct, las, lat, lnd⟩ ⟨true, l, c, t⟩ =
      (⟨true, true, sent, l, 1, t, las, lat, 0⟩, none) := by
  simp [processGestureResults, processSignForSentence, hc, hl]

/-- Qualifying sample that takes the counter exactly to the threshold,
with the cooldown not in force: the sign is committed, appended to the
sentence, the cooldown fields are updated and the counter clears. -/
theorem step_commit (sent las : String) (cnt : Nat) (lsct lat lnd : Int)
    (l : String) (c : ℚ) (t : Int)
    (hc : SIGN_CONFIDENCE_THRESHOLD ≤ c) (hcnt : cnt + 1 = SIGN_STABILITY_THRESHOLD)
    (hcd : ¬ (l = las ∧ t - lat < LETTER_COOLDOWN_PERIOD)) :
    processGestureResults ⟨true, true, sent, l, cnt, lsct, las, lat, lnd⟩ ⟨true, l, c, t⟩ =
      (⟨true, true, sent ++ l, l, 0, lsct, l, t, 0⟩, some l) := by
  simp [processGestureResults, processSignForSentence, addSignToSentence, hc, hcnt, hcd]

/-- Qualifying sample that takes the counter exactly to the threshold
while the same-label cooldown is still running: the commit is
suppressed and — crucially — the counter is left at the threshold, not
reset. -/
theorem step_suppressed (sent : String) (cnt : Nat) (lsct lat lnd : Int)
    (l : String) (c : ℚ) (t : Int)
    (hc : SIGN_CONFIDENCE_THRESHOLD ≤ c) (hcnt : cnt + 1 = SIGN_STABILITY_THRESHOLD)
    (hcd : t - lat < LETTER_COOLDOWN_PERIOD) :
    processGestureResults ⟨true, true, sent, l, cnt, lsct, l, lat, lnd⟩ ⟨true, l, c, t⟩ =
      (⟨true, true, sent, l, SIGN_STABILITY_THRESHOLD, lsct, l, lat, 0⟩, none) := by
  simp [processGestureResults, processSignForSentence, addSignToSentence, hc, hcnt, hcd]

/-! ## Run-level lemmas -/

theorem runSamples_append (l1 l2 : List Sample) :
    ∀ s : DetectorState,
      runSamples s (l1 ++ l2) =
        ((runSamples (runSamples s l1).1 l2).1,
          (runSamples s l1).2 ++ (runSamples (runSamples s l1).1 l2).2) := by
  induction l1 with
  | nil => intro s; simp [runSamples]
  | cons smp rest ih =>
    intro s
    simp [runSamples, ih, List.append_assoc]

/-- Holding one qualifying label for fewer frames than needed to reach
the threshold: the counter accumulates, nothing is committed. -/
theorem run_same_accumulate (ts : List Int) :
    ∀ (sent las : String) (cnt : Nat) (lsct lat : Int) (l : String) (c : ℚ),
      SIGN_CONFIDENCE_THRESHOLD ≤ c →
      cnt + ts.length < SIGN_STABILITY_THRESHOLD →
      runSamples ⟨true, true, sent, l, cnt, lsct, las, lat, 0⟩ (mkRun l c ts) =
        (⟨true, true, sent, l, cnt + ts.length, lsct, las, lat, 0⟩, []) := by
  induction ts with
  | nil => intro sent las cnt lsct lat l c _ _; simp [runSamples, mkRun]
  | cons t ts ih =>
    intro sent las cnt lsct lat l c hc hbound
    simp only [List.length_cons] at hbound
    have hcnt : cnt + 1 ≠ SIGN_STABILITY_THRESHOLD := by
      simp only [SIGN_STABILITY_THRESHOLD] at hbound ⊢; omega
    have hstep := step_same_label sent las cnt lsct lat 0 l c t hc hcnt
    have hrest := ih sent las (cnt + 1) lsct lat l c hc (by omega)
    have harith : cnt + 1 + ts.length = cnt + (ts.length + 1) := by omega
    simp only [mkRun, List.map_cons] at hrest ⊢
    simp only [runSamples, hstep, hrest, List.length_cons, harith]
    simp

/-- A fresh qualifying run: starting from a state observing a different
label, `1 + ts.length` frames of label `l` leave the counter at
`1 + ts.length` with no commit, provided the threshold is not reached. -/
theorem run_fresh (ts : List Int) (sent lds las : String) (cnt : Nat)
    (lsct lat lnd t : Int) (l : String) (c : ℚ)
    (hc : SIGN_CONFIDENCE_THRESHOLD ≤ c) (hl : l ≠ lds)
    (hbound : 1 + ts.length < SIGN_STABILITY_THRESHOLD) :
    runSamples ⟨true, true, sent, lds, cnt, lsct, las, lat, lnd⟩ (mkRun l c (t :: ts)) =
      (⟨true, true, sent, l, 1 + ts.length, t, las, lat, 0⟩, []) := by
  have hstep := step_new_label sent lds las cnt lsct lat lnd l c t hc hl
  have hrest := run_same_accumulate ts sent las 1 t lat l c hc hbound
  simp only [mkRun, List.map_cons] at hrest ⊢
  simp only [runSamples, hstep, hrest]
  simp

/-- The step on sample `smp` from state `s` is a cooldown-suppressed
commit attempt: the sample qualifies, repeats the observed label, takes
the counter exactly to the threshold, and the same-label cooldown is
still running. -/
def suppressedStep (s : DetectorState) (smp : Sample) : Prop :=
  smp.detected = true ∧ s.isRecording = true ∧ SIGN_CONFIDENCE_THRESHOLD ≤ smp.score ∧
    smp.label = s.lastDetectedSign ∧ s.signStabilityCounter + 1 = SIGN_STABILITY_THRESHOLD ∧
    smp.label = s.lastAddedSign ∧ smp.time - s.lastAddedTime < LETTER_COOLDOWN_PERIOD

instance (s : DetectorState) (smp : Sample) : Decidable (suppressedStep s smp) := by
  unfold suppressedStep; infer_instance

/-- No step of the run is a cooldown-suppressed commit attempt. -/
def noSuppression : DetectorState → List Sample → Prop
  | _, [] => True
  | s, smp :: rest => ¬ suppressedStep s smp ∧ noSuppression (processGestureResults s smp).1 rest

instance noSuppression.instDecidable :
    ∀ (s : DetectorState) (samples : List Sample), Decidable (noSuppression s samples)
  | _, [] => isTrue trivial
  | s, smp :: rest =>
    haveI : Decidable (noSuppression (processGestureResults s smp).1 rest) :=
      noSuppression.instDecidable (processGestureResults s smp).1 rest
    inferInstanceAs (Decidable (¬ suppressedStep s smp ∧ _))

/-- Exhaustive description of how one step can change the stability
counter: it clears, restarts at 1, stays, or increments — and an
increment to exactly the threshold happens only on a suppressed commit
attempt. -/
theorem step_counter_cases (s : DetectorState) (smp : Sample) :
    (processGestureResults s smp).1.signStabilityCounter = 0 ∨
    (processGestureResults s smp).1.signStabilityCounter = 1 ∨
    (processGestureResults s smp).1.signStabilityCounter = s.signStabilityCounter ∨
    ((processGestureResults s smp).1.signStabilityCounter = s.signStabilityCounter + 1 ∧
      (s.signStabilityCounter + 1 ≠ SIGN_STABILITY_THRESHOLD ∨ suppressedStep s smp)) := by
  rcases smp with ⟨d, l, c, t⟩
  cases d with
  | false =>
    simp only [processGestureResults]
    split_ifs <;> simp
  | true =>
    simp only [processGestureResults, processSignForSentence, addSignToSentence,
      suppressedStep]
    split_ifs with h1 h2 h3 h4 <;> simp_all

theorem step_counter_lt (s : DetectorState) (smp : Sample)
    (h : s.signStabilityCounter < SIGN_STABILITY_THRESHOLD)
    (hns : ¬ suppressedStep s smp) :
    (processGestureResults s smp).1.signStabilityCounter < SIGN_STABILITY_THRESHOLD := by
  have hcases := step_counter_cases s smp
  simp only [SIGN_STABILITY_THRESHOLD] at *
  rcases hcases with h0 | h1 | hsame | ⟨hinc, hside⟩
  · omega
  · omega
  · omega
  · rcases hside with hne | hsup
    · omega
    · exact absurd hsup hns

/-- Along a run without suppressed commit attempts, the counter stays
strictly below the threshold. -/
theorem run_counter_lt (samples : List Sample) :
    ∀ s : DetectorState, s.signStabilityCounter < SIGN_STABILITY_THRESHOLD →
      noSuppression s samples →
      (runSamples s samples).1.signStabilityCounter < SIGN_STABILITY_THRESHOLD := by
  induction samples with
  | nil => intro s h _; simpa [runSamples] using h
  | cons smp rest ih =>
    intro s h hns
    obtain ⟨h1, h2⟩ := hns
    simpa [runSamples] using ih _ (step_counter_lt s smp h h1) h2

/-- A commit is emitted only on the edge: the sample qualifies while
recording, repeats the observed label, the incremented counter equals
the threshold exactly, and the post-state counter is cleared to 0. -/
theorem commit_characterization (s : DetectorState) (smp : Sample) (s' : DetectorState)
    (l : String) (h : processGestureResults s smp = (s', some l)) :
    smp.detected = true ∧ s.isRecording = true ∧ SIGN_CONFIDENCE_THRESHOLD ≤ smp.score ∧
      smp.label = s.lastDetectedSign ∧ s.signStabilityCounter + 1 = SIGN_STABILITY_THRESHOLD ∧
      l = smp.label ∧ s'.signStabilityCounter = 0 ∧
      s'.currentSentence = s.currentSentence ++ smp.label := by
  rcases smp with ⟨d, l0, c, t⟩
  cases d with
  | false =>
    simp only [processGestureResults] at h
    split_ifs at h <;> simp_all
  | true =>
    simp only [processGestureResults, processSignForSentence, addSignToSentence] at h
    split_ifs at h with h1 h2 h3 h4 <;> simp_all
    exact ⟨by rw [← h.1], by rw [← h.1, h.2]⟩

/-- Holding a sign whose counter has already reached the threshold:
every further frame of the same label increments the counter past the
threshold and can never commit again. -/
theorem run_held_past_threshold (ts : List Int) :
    ∀ (sent las : String) (cnt : Nat) (lsct lat : Int) (l : String) (c : ℚ),
      SIGN_CONFIDENCE_THRESHOLD ≤ c →
      SIGN_STABILITY_THRESHOLD ≤ cnt →
      runSamples ⟨true, true, sent, l, cnt, lsct, las, lat, 0⟩ (mkRun l c ts) =
        (⟨true, true, sent, l, cnt + ts.length, lsct, las, lat, 0⟩, []) := by
  induction ts with
  | nil => intro sent las cnt lsct lat l c _ _; simp [runSamples, mkRun]
  | cons t ts ih =>
    intro sent las cnt lsct lat l c hc hcnt
    have hne : cnt + 1 ≠ SIGN_STABILITY_THRESHOLD := by
      simp only [SIGN_STABILITY_THRESHOLD] at hcnt ⊢; omega
    have hstep := step_same_label sent las cnt lsct lat 0 l c t hc hne
    have hrest := ih sent las (cnt + 1) lsct lat l c hc (by
      simp only [SIGN_STABILITY_THRESHOLD] at hcnt ⊢; omega)
    have harith : cnt + 1 + ts.length = cnt + (ts.length + 1) := by omega
    simp only [mkRun, List.map_cons] at hrest ⊢
    simp only [runSamples, hstep, hrest, List.length_cons, harith]
    simp

/-- The state right after recording starts on a fresh detector. -/
theorem initState_eq (t0 : Int) :
    initState t0 = ⟨true, true, "", "", 0, t0, "", 0, 0⟩ := by
  simp [initState, toggleRecording, freshDetector]

theorem mkRun_append (l : String) (c : ℚ) (as bs : List Int) :
    mkRun l c (as ++ bs) = mkRun l c as ++ mkRun l c bs := by
  simp [mkRun]

theorem runSamples_singleton (s : DetectorState) (smp : Sample) :
    runSamples s [smp] =
      ((processGestureResults s smp).1, (processGestureResults s smp).2.toList) := by
  simp [runSamples]

/-! ## Claim theorems -/

/-- C1: from the initial stabilizer state, `STABILITY_FRAMES - 1 = 9`
consecutive qualifying samples of label "A" (any times, any confidence
at or above the threshold) produce no commit, and the 10th such sample
produces exactly the single commit "A". -/
theorem commit_after_exactly_stability_frames (c : ℚ) (ts9 : List Int) (t10 t0 : Int)
    (hc : SIGN_CONFIDENCE_THRESHOLD ≤ c) (h9 : ts9.length = SIGN_STABILITY_THRESHOLD - 1) :
    (runSamples (initState t0) (mkRun "A" c ts9)).2 = [] ∧
    (runSamples (initState t0) (mkRun "A" c (ts9 ++ [t10]))).2 = ["A"] := by
  simp only [SIGN_STABILITY_THRESHOLD] at h9
  cases ts9 with
  | nil => simp at h9
  | cons t1 ts =>
    simp only [List.length_cons] at h9
    have hts : ts.length = 8 := by omega
    have hfresh := run_fresh ts "" "" "" 0 t0 0 0 t1 "A" c hc (by simp)
      (by simp only [SIGN_STABILITY_THRESHOLD]; omega)
    have hcommit := step_commit "" "" (1 + ts.length) t1 0 0 "A" c t10 hc
      (by simp only [SIGN_STABILITY_THRESHOLD]; omega) (by simp)
    refine ⟨?_, ?_⟩
    · rw [initState_eq, hfresh]
    · rw [initState_eq, mkRun_append, runSamples_append, hfresh]
      simp [mkRun, runSamples, hcommit]

/-- C1 witness: concrete instance with confidence 0.9 and millisecond
timestamps. -/
theorem commit_after_exactly_stability_frames_witness :
    SIGN_CONFIDENCE_THRESHOLD ≤ mkRat 9 10 ∧
    ([(1000001 : Int), 1000002, 1000003, 1000004, 1000005, 1000006, 1000007, 1000008,
        1000009].length = SIGN_STABILITY_THRESHOLD - 1) ∧
    ((runSamples (initState 0) (mkRun "A" (mkRat 9 10)
        [1000001, 1000002, 1000003, 1000004, 1000005, 1000006, 1000007, 1000008,
          1000009])).2 = [] ∧
      (runSamples (initState 0) (mkRun "A" (mkRat 9 10)
        ([1000001, 1000002, 1000003, 1000004, 1000005, 1000006, 1000007, 1000008,
          1000009] ++ [1000010]))).2 = ["A"]) :=
  ⟨by decide, by decide,
    commit_after_exactly_stability_frames (mkRat 9 10)
      [1000001, 1000002, 1000003, 1000004, 1000005, 1000006, 1000007, 1000008, 1000009]
      1000010 0 (by decide) (by decide)⟩

/-- C2 counterexample: a partial run of 5 qualifying "B" samples,
followed by two *detected but low-confidence* samples 2100 ms apart
(more than `NO_DETECTION_RESET_MS`), followed by only 5 fresh
qualifying "B" samples, already fires a commit — the partial run of 5
is *not* discarded, because a detected low-confidence sample clears the
no-detection timer instead of feeding it.  The claim demands that a
full count of 10 from zero be needed here. -/
theorem lowconf_gap_commit_counterexample :
    (1002200 : Int) - 1000100 > NO_DETECTION_RESET_TIME ∧
    (runSamples (initState 0)
      (mkRun "B" (mkRat 9 10) [1000000, 1000001, 1000002, 1000003, 1000004] ++
        [⟨true, "X", mkRat 1 2, 1000100⟩, ⟨true, "X", mkRat 1 2, 1002200⟩] ++
        mkRun "B" (mkRat 9 10) [1002300, 1002301, 1002302, 1002303, 1002304])).2 =
      ["B"] := by
  exact ⟨by decide, by decide⟩

/-- C2 amended: a detected sample below the confidence threshold is
ignored (it only clears the no-detection timer; counter and labels are
untouched).  Only frames with no detection at all feed the
no-detection timer, and after such a gap longer than
`NO_DETECTION_RESET_MS` the partial run of 5 "B" samples is discarded:
a further 9 fresh "B" samples yield no commit and the 10th commits. -/
theorem lowconf_ignored_nodetect_gap_resets :
    (∀ (s : DetectorState) (l : String) (c : ℚ) (t : Int),
      c < SIGN_CONFIDENCE_THRESHOLD →
      processGestureResults s ⟨true, l, c, t⟩ = ({ s with lastNoDetectionTime := 0 }, none)) ∧
    (runSamples (initState 0)
      (mkRun "B" (mkRat 9 10) [1000000, 1000001, 1000002, 1000003, 1000004] ++
        [⟨false, "", 0, 1000100⟩, ⟨false, "", 0, 1002200⟩] ++
        mkRun "B" (mkRat 9 10) [1002300, 1002301, 1002302, 1002303, 1002304, 1002305,
          1002306, 1002307, 1002308])).2 = [] ∧
    (runSamples (initState 0)
      (mkRun "B" (mkRat 9 10) [1000000, 1000001, 1000002, 1000003, 1000004] ++
        [⟨false, "", 0, 1000100⟩, ⟨false, "", 0, 1002200⟩] ++
        mkRun "B" (mkRat 9 10) [1002300, 1002301, 1002302, 1002303, 1002304, 1002305,
          1002306, 1002307, 1002308, 1002309])).2 = ["B"] :=
  ⟨fun s l c t hc => step_lowconf s l c t hc, by decide, by decide⟩

/-- C2 amended witness: the low-confidence-ignored clause applied at a
concrete state and sample. -/
theorem lowconf_ignored_nodetect_gap_resets_witness :
    processGestureResults ⟨true, true, "", "B", 5, 0, "", 0, 7⟩ ⟨true, "X", mkRat 1 2, 42⟩ =
      (⟨true, true, "", "B", 5, 0, "", 0, 0⟩, none) :=
  lowconf_ignored_nodetect_gap_resets.1 ⟨true, true, "", "B", 5, 0, "", 0, 7⟩ "X"
    (mkRat 1 2) 42 (by decide)

/-- C3: (a) right after an "A" commit at time `tc`, a further full
stable run of qualifying "A" samples whose 10th frame arrives within
`COOLDOWN_MS` of `tc` produces no commit; (b) once `COOLDOWN_MS` has
elapsed, a fresh stable run of "A" (starting from a different observed
label) commits again; (c) a commit attempt for a label different from
the last added one is never suppressed, whatever the elapsed time. -/
theorem cooldown_suppression_and_recovery :
    (∀ (sent : String) (lsct tc : Int) (c : ℚ) (ts9 : List Int) (t10 : Int),
      SIGN_CONFIDENCE_THRESHOLD ≤ c → ts9.length = 9 →
      t10 - tc < LETTER_COOLDOWN_PERIOD →
      (runSamples ⟨true, true, sent, "A", 0, lsct, "A", tc, 0⟩
        (mkRun "A" c (ts9 ++ [t10]))).2 = []) ∧
    (∀ (sent lds : String) (cnt : Nat) (lsct tc lnd t1 : Int) (c : ℚ)
        (ts8 : List Int) (t10 : Int),
      SIGN_CONFIDENCE_THRESHOLD ≤ c → lds ≠ "A" → ts8.length = 8 →
      LETTER_COOLDOWN_PERIOD ≤ t10 - tc →
      (runSamples ⟨true, true, sent, lds, cnt, lsct, "A", tc, lnd⟩
        (mkRun "A" c ((t1 :: ts8) ++ [t10]))).2 = ["A"]) ∧
    (∀ (sent las : String) (cnt : Nat) (lsct lat lnd : Int) (l : String) (c : ℚ) (t : Int),
      SIGN_CONFIDENCE_THRESHOLD ≤ c → cnt + 1 = SIGN_STABILITY_THRESHOLD → l ≠ las →
      (processGestureResults ⟨true, true, sent, l, cnt, lsct, las, lat, lnd⟩
        ⟨true, l, c, t⟩).2 = some l) := by
  refine ⟨?_, ?_, ?_⟩
  · intro sent lsct tc c ts9 t10 hc h9 hcd
    have hacc := run_same_accumulate ts9 sent "A" 0 lsct tc "A" c hc
      (by simp only [SIGN_STABILITY_THRESHOLD]; omega)
    have hsup := step_suppressed sent (0 + ts9.length) lsct tc 0 "A" c t10 hc
      (by simp only [SIGN_STABILITY_THRESHOLD]; omega) hcd
    rw [mkRun_append, runSamples_append, hacc]
    have hone : mkRun "A" c [t10] = [⟨true, "A", c, t10⟩] := by simp [mkRun]
    rw [hone, runSamples_singleton, hsup]
    rfl
  · intro sent lds cnt lsct tc lnd t1 c ts8 t10 hc hlds h8 hcool
    have hfresh := run_fresh ts8 sent lds "A" cnt lsct tc lnd t1 "A" c hc
      (Ne.symm hlds) (by simp only [SIGN_STABILITY_THRESHOLD]; omega)
    have hcommit := step_commit sent "A" (1 + ts8.length) t1 tc 0 "A" c t10 hc
      (by simp only [SIGN_STABILITY_THRESHOLD]; omega)
      (fun h => absurd h.2 (not_lt.mpr hcool))
    rw [mkRun_append, runSamples_append, hfresh]
    have hone : mkRun "A" c [t10] = [⟨true, "A", c, t10⟩] := by simp [mkRun]
    rw [hone, runSamples_singleton, hcommit]
    rfl
  · intro sent las cnt lsct lat lnd l c t hc hcnt hl
    rw [step_commit sent las cnt lsct lat lnd l c t hc hcnt (fun h => hl h.1)]

/-- C3 witness: all three clauses at concrete inputs (commit of "A" at
time 1000000; a suppressed re-run ending 3499 ms later; a successful
fresh run ending 3500 ms later; an immediate "B" commit). -/
theorem cooldown_suppression_and_recovery_witness :
    (runSamples ⟨true, true, "A", "A", 0, 0, "A", 1000000, 0⟩
      (mkRun "A" (mkRat 9 10)
        ([1000040, 1000080, 1000120, 1000160, 1000200, 1000240, 1000280, 1000320,
          1000360] ++ [1003499]))).2 = [] ∧
    (runSamples ⟨true, true, "A", "", 0, 0, "A", 1000000, 0⟩
      (mkRun "A" (mkRat 9 10)
        ((1003140 : Int) :: [1003180, 1003220, 1003260, 1003300, 1003340, 1003380,
          1003420, 1003460] ++ [1003500]))).2 = ["A"] ∧
    (processGestureResults ⟨true, true, "A", "B", 9, 0, "A", 1000000, 0⟩
      ⟨true, "B", mkRat 9 10, 1000400⟩).2 = some "B" :=
  ⟨cooldown_suppression_and_recovery.1 "A" 0 1000000 (mkRat 9 10)
      [1000040, 1000080, 1000120, 1000160, 1000200, 1000240, 1000280, 1000320, 1000360]
      1003499 (by decide) (by decide) (by decide),
    cooldown_suppression_and_recovery.2.1 "A" "" 0 0 1000000 0 1003140 (mkRat 9 10)
      [1003180, 1003220, 1003260, 1003300, 1003340, 1003380, 1003420, 1003460]
      1003500 (by decide) (by decide) (by decide) (by decide),
    cooldown_suppression_and_recovery.2.2 "A" "A" 9 0 1000000 0 "B" (mkRat 9 10)
      1000400 (by decide) (by decide) (by decide)⟩

/-- C4 counterexample: after one "A" commit, holding "A" has its next
commit attempt suppressed by the cooldown, after which the counter
keeps incrementing: 22 frames of "A" drive the counter to 12, strictly
above `STABILITY_FRAMES + 1 = 11`.  The claimed bound fails on
reachable states. -/
theorem counter_exceeds_bound_counterexample :
    SIGN_STABILITY_THRESHOLD + 1 <
      (runSamples (initState 0) (mkRun "A" (mkRat 9 10)
        [1000000, 1000001, 1000002, 1000003, 1000004, 1000005, 1000006, 1000007,
          1000008, 1000009, 1000010, 1000011, 1000012, 1000013, 1000014, 1000015,
          1000016, 1000017, 1000018, 1000019, 1000020, 1000021])).1.signStabilityCounter := by
  decide

/-- C4 amended: the counter restarts at 1 whenever a qualifying sample
carries a label different from the observed one; and along any run
from the initial state in which no commit attempt is suppressed by the
cooldown, the counter never exceeds `STABILITY_FRAMES + 1` (it in fact
stays below `STABILITY_FRAMES`).  A suppressed attempt voids the
bound, as the counterexample shows. -/
theorem counter_reset_and_bound_without_suppression :
    (∀ (sent lds las : String) (cnt : Nat) (lsct lat lnd : Int) (l : String) (c : ℚ) (t : Int),
      SIGN_CONFIDENCE_THRESHOLD ≤ c → l ≠ lds →
      (processGestureResults ⟨true, true, sent, lds, cnt, lsct, las, lat, lnd⟩
        ⟨true, l, c, t⟩).1.signStabilityCounter = 1) ∧
    (∀ (t0 : Int) (samples : List Sample),
      noSuppression (initState t0) samples →
      (runSamples (initState t0) samples).1.signStabilityCounter ≤
        SIGN_STABILITY_THRESHOLD + 1) := by
  constructor
  · intro sent lds las cnt lsct lat lnd l c t hc hl
    rw [step_new_label sent lds las cnt lsct lat lnd l c t hc hl]
  · intro t0 samples hns
    have h0 : (initState t0).signStabilityCounter < SIGN_STABILITY_THRESHOLD := by
      rw [initState_eq]; simp [SIGN_STABILITY_THRESHOLD]
    have := run_counter_lt samples (initState t0) h0 hns
    omega

/-- C4 amended witness: the reset clause at a concrete state, and the
bound for a concrete suppression-free trace. -/
theorem counter_reset_and_bound_without_suppression_witness :
    (processGestureResults ⟨true, true, "", "B", 7, 0, "", 0, 0⟩
      ⟨true, "A", mkRat 9 10, 42⟩).1.signStabilityCounter = 1 ∧
    (runSamples (initState 0) (mkRun "A" (mkRat 9 10)
      [1000000, 1000001, 1000002])).1.signStabilityCounter ≤
        SIGN_STABILITY_THRESHOLD + 1 :=
  ⟨counter_reset_and_bound_without_suppression.1 "" "B" "" 7 0 0 0 "A" (mkRat 9 10) 42
      (by decide) (by decide),
    counter_reset_and_bound_without_suppression.2 0
      (mkRun "A" (mkRat 9 10) [1000000, 1000001, 1000002]) (by decide)⟩

/-- C5 counterexample: one maximal stable run — 20 consecutive
qualifying "A" frames, 400 ms apart — emits two commits, because after
the first commit the counter re-accumulates within the same hold and
the second attempt falls outside the cooldown window. -/
theorem two_commits_one_run_counterexample :
    (runSamples (initState 0) (mkRun "A" (mkRat 9 10)
      [1000000, 1000400, 1000800, 1001200, 1001600, 1002000, 1002400, 1002800,
        1003200, 1003600, 1004000, 1004400, 1004800, 1005200, 1005600, 1006000,
        1006400, 1006800, 1007200, 1007600])).2 = ["A", "A"] := by
  decide

/-- C5 amended: commits are edge-triggered — a commit is emitted on a
step only when the pre-state counter is one below `STABILITY_FRAMES`
and the sample repeats the observed label, and the post-state counter
is cleared to 0 — so a further commit within the same hold needs a
full re-accumulation (and cooldown expiry); a run longer than the
cooldown can therefore emit more than one commit. -/
theorem commit_edge_triggered (s : DetectorState) (smp : Sample) (s' : DetectorState)
    (l : String) (h : processGestureResults s smp = (s', some l)) :
    s.signStabilityCounter + 1 = SIGN_STABILITY_THRESHOLD ∧
      smp.label = s.lastDetectedSign ∧ l = smp.label ∧
      s'.signStabilityCounter = 0 := by
  obtain ⟨_, _, _, h4, h5, h6, h7, _⟩ := commit_characterization s smp s' l h
  exact ⟨h5, h4, h6, h7⟩

/-- C5 amended witness: the characterization applied to a concrete
committing step. -/
theorem commit_edge_triggered_witness :
    (9 : Nat) + 1 = SIGN_STABILITY_THRESHOLD ∧ ("A" : String) = "A" ∧
      ("A" : String) = "A" ∧ (0 : Nat) = 0 :=
  commit_edge_triggered ⟨true, true, "", "A", 9, 0, "", 0, 0⟩
    ⟨true, "A", mkRat 9 10, 1000000⟩ ⟨true, true, "A", "A", 0, 0, "A", 1000000, 0⟩ "A"
    (by decide)

/-- C10: a cooldown-suppressed commit attempt leaves the counter at the
threshold (not reset), and from any state whose counter has already
reached the threshold, continuing to hold the same sign produces no
commit ever again — the counter just keeps growing by one per frame,
regardless of the sample times. -/
theorem suppressed_hold_never_commits :
    (∀ (sent : String) (cnt : Nat) (lsct lat lnd : Int) (l : String) (c : ℚ) (t : Int),
      SIGN_CONFIDENCE_THRESHOLD ≤ c → cnt + 1 = SIGN_STABILITY_THRESHOLD →
      t - lat < LETTER_COOLDOWN_PERIOD →
      processGestureResults ⟨true, true, sent, l, cnt, lsct, l, lat, lnd⟩ ⟨true, l, c, t⟩ =
        (⟨true, true, sent, l, SIGN_STABILITY_THRESHOLD, lsct, l, lat, 0⟩, none)) ∧
    (∀ (ts : List Int) (sent las : String) (cnt : Nat) (lsct lat : Int) (l : String) (c : ℚ),
      SIGN_CONFIDENCE_THRESHOLD ≤ c → SIGN_STABILITY_THRESHOLD ≤ cnt →
      (runSamples ⟨true, true, sent, l, cnt, lsct, las, lat, 0⟩ (mkRun l c ts)).2 = [] ∧
      (runSamples ⟨true, true, sent, l, cnt, lsct, las, lat, 0⟩
          (mkRun l c ts)).1.signStabilityCounter = cnt + ts.length) := by
  constructor
  · intro sent cnt lsct lat lnd l c t hc hcnt hcd
    exact step_suppressed sent cnt lsct lat lnd l c t hc hcnt hcd
  · intro ts sent las cnt lsct lat l c hc hcnt
    rw [run_held_past_threshold ts sent las cnt lsct lat l c hc hcnt]
    exact ⟨rfl, rfl⟩

/-- C10 witness: a concrete suppressed attempt (counter stays at 10)
followed by a long same-label hold with no commits. -/
theorem suppressed_hold_never_commits_witness :
    processGestureResults ⟨true, true, "A", "A", 9, 0, "A", 1000000, 0⟩
        ⟨true, "A", mkRat 9 10, 1000400⟩ =
      (⟨true, true, "A", "A", SIGN_STABILITY_THRESHOLD, 0, "A", 1000000, 0⟩, none) ∧
    ((runSamples ⟨true, true, "A", "A", 10, 0, "A", 1000000, 0⟩
        (mkRun "A" (mkRat 9 10) [1000800, 1010000, 1020000, 1030000])).2 = [] ∧
      (runSamples ⟨true, true, "A", "A", 10, 0, "A", 1000000, 0⟩
        (mkRun "A" (mkRat 9 10)
          [1000800, 1010000, 1020000, 1030000])).1.signStabilityCounter = 10 + 4) :=
  ⟨suppressed_hold_never_commits.1 "A" 9 0 1000000 0 "A" (mkRat 9 10) 1000400
      (by decide) (by decide) (by decide),
    by
      have h := suppressed_hold_never_commits.2 [1000800, 1010000, 1020000, 1030000]
        "A" "A" 10 0 1000000 "A" (mkRat 9 10) (by decide) (by decide)
      simpa using h⟩

/-- C6 counterexample: the claim says a gesture-driven space is
dropped when the text is empty; in the code the drop is keyed to the
`spaceAdded` flag, so from the reset state (empty text, flag clear) a
space gesture *does* append a space to the empty transcript. -/
theorem gesture_space_on_empty_counterexample :
    (updateText { ConverterState.reset with currentGesture := "space" }).text = " " := by
  decide

/-- C6 amended: two consecutive space commits append exactly one space
— the second is suppressed by the `spaceAdded` flag (set by the first),
not by inspecting the text for emptiness or a trailing space — and the
explicit `addSpace` command always appends a space unconditionally. -/
theorem space_collapse_and_addSpace :
    (∀ s : ConverterState, s.spaceAdded = false →
      (updateText (updateText { s with currentGesture := "space" })).text = s.text ++ " " ∧
      (updateText { s with currentGesture := "space" }).spaceAdded = true) ∧
    (∀ d : DetectorState, (addSpace d).currentSentence = d.currentSentence ++ " ") := by
  constructor
  · intro s hs
    constructor
    · simp [updateText, hs]
    · simp [updateText, hs]
  · intro d
    rfl

/-- C6 amended witness: the space-collapse clause at the reset state
(and `addSpace` on a sentence already ending in a space). -/
theorem space_collapse_and_addSpace_witness :
    ((updateText (updateText { ConverterState.reset with currentGesture := "space" })).text =
        ConverterState.reset.text ++ " " ∧
      (updateText { ConverterState.reset with currentGesture := "space" }).spaceAdded = true) ∧
    (addSpace ⟨true, true, "AB ", "", 0, 0, "", 0, 0⟩).currentSentence = "AB " ++ " " :=
  ⟨space_collapse_and_addSpace.1 ConverterState.reset (by decide),
    space_collapse_and_addSpace.2 ⟨true, true, "AB ", "", 0, 0, "", 0, 0⟩⟩

/-- C7 counterexample: stopping a recording does not reset the
stabilizer to all-empty.  After five qualifying "B" frames the counter
is 5 and the observed label is "B"; toggling recording off leaves both
in place (the partial run and the cooldown/no-detection fields
survive), where the claim demands an all-empty stabilizer. -/
theorem stop_preserves_stabilizer_counterexample :
    (toggleRecording (runSamples (initState 0)
        (mkRun "B" (mkRat 9 10)
          [1000000, 1000001, 1000002, 1000003, 1000004])).1 1000500).signStabilityCounter = 5 ∧
    (toggleRecording (runSamples (initState 0)
        (mkRun "B" (mkRat 9 10)
          [1000000, 1000001, 1000002, 1000003, 1000004])).1 1000500).lastDetectedSign = "B" := by
  exact ⟨by decide, by decide⟩

/-- C7 amended: stopping a recording flips only the recording flag and
leaves every stabilizer field and the transcript unchanged; the partial
reset (counter, observed label, sign-change time — but not the cooldown
fields or the no-detection timer) happens when recording *starts*; and
clearing empties only the transcript, leaving the stabilizer alone. -/
theorem lifecycle_reset_behavior :
    (∀ (sent lds las : String) (cnt : Nat) (lsct lat lnd t : Int),
      toggleRecording ⟨true, true, sent, lds, cnt, lsct, las, lat, lnd⟩ t =
        ⟨true, false, sent, lds, cnt, lsct, las, lat, lnd⟩) ∧
    (∀ (sent lds las : String) (cnt : Nat) (lsct lat lnd t : Int),
      toggleRecording ⟨true, false, sent, lds, cnt, lsct, las, lat, lnd⟩ t =
        ⟨true, true, sent, "", 0, t, las, lat, lnd⟩) ∧
    (∀ (w r : Bool) (sent lds las : String) (cnt : Nat) (lsct lat lnd : Int),
      clearSentence ⟨w, r, sent, lds, cnt, lsct, las, lat, lnd⟩ =
        ⟨w, r, "", lds, cnt, lsct, las, lat, lnd⟩) := by
  refine ⟨?_, ?_, ?_⟩
  · intro sent lds las cnt lsct lat lnd t
    simp [toggleRecording]
  · intro sent lds las cnt lsct lat lnd t
    simp [toggleRecording]
  · intro w r sent lds cnt las lsct lat lnd
    rfl

/-- C8 counterexample: an empty label is not treated as "no detection"
when its confidence qualifies — ten samples of label `""` at 0.9 from
the initial state extend a stable run of `""` and produce a commit
event carrying the empty label. -/
theorem empty_label_commit_counterexample :
    (runSamples (initState 0) (mkRun "" (mkRat 9 10)
      [1000000, 1000001, 1000002, 1000003, 1000004, 1000005, 1000006, 1000007,
        1000008, 1000009])).2 = [""] := by
  decide

/-- C8 amended: the per-sample step is a total function; a detected
sample whose confidence is below the threshold (negative included)
never extends a run and never commits — its only effect is clearing
the no-detection timer; and a qualifying sample is forwarded to the
run logic with its label verbatim — empty labels are not normalized to
"no detection". -/
theorem lowconf_ignored_label_not_normalized :
    (∀ (s : DetectorState) (l : String) (c : ℚ) (t : Int),
      c < SIGN_CONFIDENCE_THRESHOLD →
      (processGestureResults s ⟨true, l, c, t⟩).2 = none ∧
      (processGestureResults s ⟨true, l, c, t⟩).1.signStabilityCounter =
        s.signStabilityCounter ∧
      (processGestureResults s ⟨true, l, c, t⟩).1.lastDetectedSign = s.lastDetectedSign) ∧
    (∀ (s : DetectorState) (l : String) (c : ℚ) (t : Int),
      s.isRecording = true → SIGN_CONFIDENCE_THRESHOLD ≤ c →
      processGestureResults s ⟨true, l, c, t⟩ =
        processSignForSentence { s with lastNoDetectionTime := 0 } l t) := by
  constructor
  · intro s l c t hc
    rw [step_lowconf s l c t hc]
    exact ⟨rfl, rfl, rfl⟩
  · intro s l c t hrec hc
    exact step_qualifying s l c t hrec hc

/-- C8 amended witness: a negative-confidence sample is ignored, and a
qualifying empty-label sample is forwarded verbatim. -/
theorem lowconf_ignored_label_not_normalized_witness :
    ((processGestureResults ⟨true, true, "", "B", 5, 0, "", 0, 0⟩
        ⟨true, "B", mkRat (-1) 2, 42⟩).2 = none ∧
      (processGestureResults ⟨true, true, "", "B", 5, 0, "", 0, 0⟩
        ⟨true, "B", mkRat (-1) 2, 42⟩).1.signStabilityCounter =
          (⟨true, true, "", "B", 5, 0, "", 0, 0⟩ : DetectorState).signStabilityCounter ∧
      (processGestureResults ⟨true, true, "", "B", 5, 0, "", 0, 0⟩
        ⟨true, "B", mkRat (-1) 2, 42⟩).1.lastDetectedSign =
          (⟨true, true, "", "B", 5, 0, "", 0, 0⟩ : DetectorState).lastDetectedSign) ∧
    processGestureResults ⟨true, true, "", "", 3, 0, "", 0, 0⟩ ⟨true, "", mkRat 9 10, 42⟩ =
      processSignForSentence ⟨true, true, "", "", 3, 0, "", 0, 0⟩ "" 42 :=
  ⟨lowconf_ignored_label_not_normalized.1 ⟨true, true, "", "B", 5, 0, "", 0, 0⟩ "B"
      (mkRat (-1) 2) 42 (by decide),
    lowconf_ignored_label_not_normalized.2 ⟨true, true, "", "", 3, 0, "", 0, 0⟩ ""
      (mkRat 9 10) 42 (by decide) (by decide)⟩

/-- C9: `deleteLastWord` on a buffer with no pending word splits the
trimmed text on spaces, drops the last token, rejoins and re-appends a
trailing space when non-empty — in particular "HELLO WORLD " becomes
"HELLO ", then "HELLO " becomes "", and the empty buffer is untouched
— and `deleteLastCharacter` drops the final character of the text (a
no-op on the empty buffer). -/
theorem delete_word_and_char_behavior :
    (deleteLastWord { ConverterState.reset with text := "HELLO WORLD " }).text = "HELLO " ∧
    (deleteLastWord { ConverterState.reset with text := "HELLO " }).text = "" ∧
    deleteLastWord ConverterState.reset = ConverterState.reset ∧
    (∀ s : ConverterState, s.currentWord = "" →
      (deleteLastCharacter s).text = jsDropLast s.text ∧
      (deleteLastCharacter s).currentWord = "") ∧
    deleteLastCharacter ConverterState.reset = ConverterState.reset := by
  refine ⟨by decide, by decide, by decide, ?_, by decide⟩
  intro s hw
  unfold deleteLastCharacter
  split_ifs with h1 h2
  · rw [hw] at h1; simp at h1
  · exact ⟨rfl, hw⟩
  · refine ⟨?_, hw⟩
    cases hst : s.text with
    | mk d =>
      have hd : d = [] := by
        rw [hst] at h2
        simpa [String.length] using h2
      simp [jsDropLast, hd]

/-- C9 witness: the character-deletion clause at a concrete buffer. -/
theorem delete_word_and_char_behavior_witness :
    (deleteLastCharacter { ConverterState.reset with text := "AB" }).text =
        jsDropLast ({ ConverterState.reset with text := "AB" } : ConverterState).text ∧
      (deleteLastCharacter { ConverterState.reset with text := "AB" }).currentWord = "" :=
  delete_word_and_char_behavior.2.2.2.1 { ConverterState.reset with text := "AB" } (by decide)

end ASL
